import Mathlib

/-!
Verification of the searchable single-select dropdown widget (`Select`).

The component keeps three pieces of interaction state (`focusedIndex`,
`uncontrolledOpen`, `search`) plus one pending clear-timer handle, and
derives everything else (`isSearchable`, `selectedIndex`, displayed value,
per-item flags) from its props on each render.  We embed the props, the
state, the event handlers (`handleAnchorClick`, `handleAnchorKeydown`,
`handleMenuKeydown`, `handleChildChange`) and the search effect as pure
Lean functions, with emitted callback invocations collected in a list.

JavaScript values that can appear as option values are modelled by `JSVal`:
strings carry their text, objects carry a reference identity and a
structural content, so that strict equality (`===`) and the library's
`isDeepEqual` can disagree on objects.
-/

/-- A JavaScript value usable as an option value: a string, or an object
with a reference identity (first field) and structural content (second). -/
inductive JSVal where
  | str : String → JSVal
  | obj : Nat → Nat → JSVal
deriving DecidableEq

/-- JavaScript strict equality `===`: strings compare by text, objects by
reference identity; a string never equals an object. -/
def strictEq : JSVal → JSVal → Bool
  | JSVal.str a, JSVal.str b => a == b
  | JSVal.obj r _, JSVal.obj r' _ => r == r'
  | _, _ => false

/-- The shared helper `isDeepEqual`: strings compare by text, objects by
structural content, regardless of reference identity. -/
def isDeepEqual : JSVal → JSVal → Bool
  | JSVal.str a, JSVal.str b => a == b
  | JSVal.obj _ c, JSVal.obj _ c' => c == c'
  | _, _ => false

/-- JavaScript `String(v)` coercion: identity on strings, the standard
object stringification otherwise. -/
def jsString : JSVal → String
  | JSVal.str s => s
  | JSVal.obj _ _ => "[object Object]"

/-- `typeof v === 'string'`. -/
def isStringVal : JSVal → Bool
  | JSVal.str _ => true
  | JSVal.obj _ _ => false

/-- `a === value` where the `value` prop may be `undefined` (`none`). -/
def strictEqV (a : JSVal) : Option JSVal → Bool
  | none => false
  | some b => strictEq a b

/-- `isDeepEqual(a, value)` where the `value` prop may be `undefined`. -/
def isDeepEqualV (a : JSVal) : Option JSVal → Bool
  | none => false
  | some b => isDeepEqual a b

/-- JavaScript `s.startsWith(pre)`: case-sensitive prefix test. -/
def jsStartsWith (s pre : String) : Bool := pre.data.isPrefixOf s.data

/-- JavaScript `Array.prototype.findIndex`, with the component's
`index !== -1 ? index : null` wrapping folded in: the index of the first
element satisfying `q`, or `none`. -/
def jsFindIndex (q : α → Bool) : List α → Option Nat
  | [] => none
  | x :: xs => if q x then some 0 else (jsFindIndex q xs).map (· + 1)

/-- One `Option` child: its `value` prop, its renderable `children`
(label text, `""` when absent/falsy) and its `title` (`""` when absent). -/
structure OptionItem where
  value : JSVal
  label : String
  title : String
deriving DecidableEq

/-- The `Select` component's props that drive its logic. -/
structure SelectProps where
  children : List OptionItem
  value : Option JSVal
  placeholder : String
  isOpen : Option Bool
  clearSearchAfter : Nat
  getSearchableValue : Option (JSVal → String)

/-- The component's internal state: `focusedIndex`, `uncontrolledOpen`,
`search`, and the pending search-clear timeouts (deadlines) owned through
`searchClearTimeout`. -/
structure SelectState where
  focusedIndex : Option Nat
  uncontrolledOpen : Bool
  search : String
  timers : List Nat
deriving DecidableEq

/-- A callback invocation emitted by the component. -/
inductive Emitted where
  | onOpen : Emitted
  | onClose : Emitted
  | change : JSVal → Nat → Emitted
deriving DecidableEq

/-- The state right after mount: no focus, closed, empty buffer, no timer. -/
def initState : SelectState := ⟨none, false, "", []⟩

/-- `children.map((child) => child.props.value)`. -/
def allOptionValues (p : SelectProps) : List JSVal := p.children.map (·.value)

/-- `allOptionValues.every((child) => typeof child === 'string')`. -/
def isNaturallySearchable (p : SelectProps) : Bool :=
  (allOptionValues p).all isStringVal

/-- `isNaturallySearchable || Boolean(getSearchableValue)`. -/
def isSearchable (p : SelectProps) : Bool :=
  isNaturallySearchable p || p.getSearchableValue.isSome

/-- `controlledOpen !== undefined`. -/
def isControlled (p : SelectProps) : Bool := p.isOpen.isSome

/-- `isControlled ? controlledOpen : uncontrolledOpen`. -/
def isOpenNow (p : SelectProps) (s : SelectState) : Bool :=
  match p.isOpen with
  | some b => b
  | none => s.uncontrolledOpen

/-- `children.findIndex((child) => child.props.value === value)`, wrapped to
`null` on `-1`. -/
def selectedIndex (p : SelectProps) : Option Nat :=
  jsFindIndex (fun c => strictEqV c.value p.value) p.children

/-- `getSearchableValue?.(v) || String(v)`: the projection's result when it
is supplied and truthy (non-empty), else the `String(v)` coercion. -/
def searchableString (p : SelectProps) (v : JSVal) : String :=
  match p.getSearchableValue with
  | some f => if f v = "" then jsString v else f v
  | none => jsString v

/-- The searchable string as the specification's section 4.4 words it:
the explicit projection function's result if one is supplied, else the
option's string value.  Written from the spec to compare with the source's
`searchableString` (which falls back on a falsy projection result). -/
def specSearchableString (p : SelectProps) (v : JSVal) : String :=
  match p.getSearchableValue with
  | some f => f v
  | none => jsString v

/-- `allOptionValues.findIndex((v) => (getSearchableValue?.(v) ||
String(v)).startsWith(search))`. -/
def matchedIndex (p : SelectProps) (search : String) : Option Nat :=
  jsFindIndex (fun v => jsStartsWith (searchableString p v) search)
    (allOptionValues p)

/-- The `useEffect` on `[search]`: returns early on an empty buffer or an
unsearchable option set; otherwise cancels the pending clear timeout,
schedules a new one `clearSearchAfter` ms from `now`, and moves
`focusedIndex` to the first prefix match when one exists. -/
def searchEffect (p : SelectProps) (now : Nat) (s : SelectState) :
    SelectState :=
  if s.search = "" then s
  else if isSearchable p then
    let s1 := { s with timers := [now + p.clearSearchAfter] }
    match matchedIndex p s1.search with
    | some i => { s1 with focusedIndex := some i }
    | none => s1
  else s

/-- `open()`: in controlled mode invoke `onOpen`, else set the uncontrolled
open flag; in both cases set `focusedIndex` to `selectedIndex || 0`. -/
def openSelect (p : SelectProps) (s : SelectState) :
    SelectState × List Emitted :=
  let r :=
    if isControlled p then (s, [Emitted.onOpen])
    else ({ s with uncontrolledOpen := true }, ([] : List Emitted))
  ({ r.1 with focusedIndex := some ((selectedIndex p).getD 0) }, r.2)

/-- `close()`: in controlled mode invoke `onClose`, else clear the
uncontrolled open flag. -/
def closeSelect (p : SelectProps) (s : SelectState) :
    SelectState × List Emitted :=
  if isControlled p then (s, [Emitted.onClose])
  else ({ s with uncontrolledOpen := false }, [])

/-- `goToPreviousItem()`: decrement `focusedIndex` unless it is `null`
or `0`. -/
def goToPreviousItem (s : SelectState) : SelectState :=
  match s.focusedIndex with
  | none => s
  | some i => if i ≠ 0 then { s with focusedIndex := some (i - 1) } else s

/-- `goToNextItem()`: increment `focusedIndex` unless it is `null` or
already `children.length - 1` (a JavaScript number comparison, hence the
cast to `Int`). -/
def goToNextItem (p : SelectProps) (s : SelectState) : SelectState :=
  match s.focusedIndex with
  | none => s
  | some i =>
    if (i : Int) ≠ (p.children.length : Int) - 1 then
      { s with focusedIndex := some (i + 1) }
    else s

/-- `handleAnchorClick`: close when open, open when closed. -/
def handleAnchorClick (p : SelectProps) (s : SelectState) :
    SelectState × List Emitted :=
  if isOpenNow p s then closeSelect p s else openSelect p s

/-- `handleAnchorKeydown`: the Space key calls `open()`; every other key
falls through the `default` case. -/
def handleAnchorKeydown (p : SelectProps) (key : String) (s : SelectState) :
    SelectState × List Emitted :=
  if key = " " then openSelect p s else (s, [])

/-- `/^[a-z0-9]+$/i.test(key)`: non-empty and all ASCII letters/digits. -/
def isAlphanumericKey (key : String) : Bool :=
  !key.data.isEmpty &&
    key.data.all fun c =>
      ('a' ≤ c && c ≤ 'z') || ('A' ≤ c && c ≤ 'Z') || ('0' ≤ c && c ≤ '9')

/-- The `switch (e.key)` at the top of `handleMenuKeydown`: ArrowUp and
ArrowDown move the focus cursor, Escape closes, everything else falls
through the `default` case. -/
def menuSwitch (p : SelectProps) (key : String) (s : SelectState) :
    SelectState × List Emitted :=
  if key = "ArrowUp" then (goToPreviousItem s, ([] : List Emitted))
  else if key = "ArrowDown" then (goToNextItem p s, [])
  else if key = "Escape" then closeSelect p s
  else (s, [])

/-- `handleMenuKeydown`: the switch dispatches ArrowUp/ArrowDown/Escape,
then an alphanumeric key of length 1 is appended to the search buffer when
the option set is searchable, after which the `[search]` effect runs. -/
def handleMenuKeydown (p : SelectProps) (key : String) (now : Nat)
    (s : SelectState) : SelectState × List Emitted :=
  let r := menuSwitch p key s
  if isAlphanumericKey key && isSearchable p && key.data.length == 1 then
    (searchEffect p now { r.1 with search := r.1.search ++ key }, r.2)
  else r

/-- `handleChildChange(index)`: the cloned child at `index` reports its own
value, and `handleChange` forwards exactly one `{ value, selectedIndex }`
event to the `onChange` prop. -/
def handleChildChange (p : SelectProps) (index : Nat) : List Emitted :=
  match p.children.get? index with
  | some c => [Emitted.change c.value index]
  | none => []

/-- The `selected` flag given to the item at `i`:
`isDeepEqual(childValue, value)`. -/
def itemSelected (p : SelectProps) (i : Nat) : Bool :=
  match p.children.get? i with
  | some c => isDeepEqualV c.value p.value
  | none => false

/-- `selectedChild?.props?.children || selectedChild?.props?.title ||
placeholder`, where `selectedChild` is `children[selectedIndex]` when
`selectedIndex` is a number and `null` otherwise. -/
def displayedValue (p : SelectProps) : String :=
  match selectedIndex p with
  | none => p.placeholder
  | some i =>
    match p.children.get? i with
    | none => p.placeholder
    | some c =>
      if c.label ≠ "" then c.label
      else if c.title ≠ "" then c.title
      else p.placeholder

/-- A timed event on the open menu: a keydown at a given instant, or the
scheduled clear callback firing at its deadline. -/
inductive TimedEvent where
  | keydown : String → Nat → TimedEvent
  | fire : Nat → TimedEvent

/-- One timed step: keydowns run `handleMenuKeydown`; a fire event runs the
`setSearch('')` callback when its deadline is still pending (a cleared
timeout never fires). -/
def timedStep (p : SelectProps) (s : SelectState) : TimedEvent → SelectState
  | TimedEvent.keydown k t => (handleMenuKeydown p k t s).1
  | TimedEvent.fire d =>
    if s.timers.contains d then { s with search := "", timers := [] } else s

/-- Run a sequence of timed events from a state. -/
def runTimed (p : SelectProps) (s : SelectState) (evs : List TimedEvent) :
    SelectState :=
  evs.foldl (timedStep p) s

/-- An arrow-key event for navigation sequences. -/
inductive ArrowKey where
  | up : ArrowKey
  | down : ArrowKey

/-- The `e.key` string an arrow key produces. -/
def arrowKeyName : ArrowKey → String
  | ArrowKey.up => "ArrowUp"
  | ArrowKey.down => "ArrowDown"

/-- Feed a sequence of arrow keydowns to the menu handler. -/
def applyArrows (p : SelectProps) (s : SelectState) (l : List ArrowKey) :
    SelectState :=
  l.foldl (fun st a => (handleMenuKeydown p (arrowKeyName a) 0 st).1) s

theorem jsFindIndex_eq_none {α : Type _} (q : α → Bool) :
    ∀ l : List α, jsFindIndex q l = none ↔ ∀ a ∈ l, q a = false := by
  intro l
  induction l with
  | nil => simp [jsFindIndex]
  | cons x xs ih =>
    cases hq : q x with
    | true => simp [jsFindIndex, hq]
    | false => simp [jsFindIndex, hq, Option.map_eq_none', ih]

theorem jsFindIndex_eq_some {α : Type _} (q : α → Bool) :
    ∀ (l : List α) (i : Nat), jsFindIndex q l = some i ↔
      ((∃ x, l.get? i = some x ∧ q x = true) ∧
        ∀ j, j < i → ∀ y, l.get? j = some y → q y = false) := by
  intro l
  induction l with
  | nil => intro i; simp [jsFindIndex]
  | cons x xs ih =>
    intro i
    cases hq : q x with
    | true =>
      cases i with
      | zero => simp [jsFindIndex, hq]
      | succ n =>
        simp only [jsFindIndex, hq, if_true]
        constructor
        · intro h
          simp only [Option.some.injEq] at h
          omega
        · rintro ⟨-, hall⟩
          have h0 := hall 0 (Nat.succ_pos n) x (by simp)
          simp [hq] at h0
    | false =>
      cases i with
      | zero =>
        simp only [jsFindIndex, hq, if_false]
        constructor
        · intro h
          rcases Option.map_eq_some'.mp h with ⟨i', -, hi'⟩
          omega
        · rintro ⟨⟨y, hy, hqy⟩, -⟩
          rw [List.get?_cons_zero] at hy
          injection hy with hy
          rw [hy] at hq
          rw [hq] at hqy
          cases hqy
      | succ n =>
        simp only [jsFindIndex, hq, if_false]
        constructor
        · intro h
          rcases Option.map_eq_some'.mp h with ⟨i', hfi, hi'⟩
          have hn : i' = n := by omega
          rw [hn] at hfi
          rcases (ih n).mp hfi with ⟨⟨y, hy, hqy⟩, hall⟩
          refine ⟨⟨y, by simpa using hy, hqy⟩, ?_⟩
          intro j hj z hz
          cases j with
          | zero =>
            rw [List.get?_cons_zero] at hz
            injection hz with hz
            rw [← hz]
            exact hq
          | succ m =>
            exact hall m (by omega) z (by simpa using hz)
        · rintro ⟨⟨y, hy, hqy⟩, hall⟩
          have hfi : jsFindIndex q xs = some n := by
            apply (ih n).mpr
            refine ⟨⟨y, by simpa using hy, hqy⟩, ?_⟩
            intro j hj z hz
            exact hall (j + 1) (by omega) z (by simpa using hz)
          simp [hfi]

/-- The scenario option list `["apple","banana","cherry"]` with default
configuration. -/
def bananaProps : SelectProps :=
  { children := [⟨JSVal.str "apple", "apple", ""⟩, ⟨JSVal.str "banana", "banana", ""⟩,
      ⟨JSVal.str "cherry", "cherry", ""⟩]
    value := none
    placeholder := ""
    isOpen := none
    clearSearchAfter := 500
    getSearchableValue := none }

/-- Two object-valued options where the `value` prop is deep-equal to the
second option's value (same content `5`) but strictly equal to neither
(distinct references). -/
def deepOnlyProps : SelectProps :=
  { children := [⟨JSVal.obj 0 1, "first", ""⟩, ⟨JSVal.obj 1 5, "second", ""⟩]
    value := some (JSVal.obj 2 5)
    placeholder := "ph"
    isOpen := none
    clearSearchAfter := 500
    getSearchableValue := none }

theorem menuKeydown_arrowUp (p : SelectProps) (now : Nat) (s : SelectState) :
    handleMenuKeydown p "ArrowUp" now s = (goToPreviousItem s, []) := by
  have hlen : (("ArrowUp".data.length : Nat) == 1) = false := by decide
  simp [handleMenuKeydown, menuSwitch, hlen]

theorem menuKeydown_arrowDown (p : SelectProps) (now : Nat) (s : SelectState) :
    handleMenuKeydown p "ArrowDown" now s = (goToNextItem p s, []) := by
  have hlen : (("ArrowDown".data.length : Nat) == 1) = false := by decide
  simp [handleMenuKeydown, menuSwitch, hlen]

theorem goToPreviousItem_timers (s : SelectState) :
    (goToPreviousItem s).timers = s.timers := by
  unfold goToPreviousItem
  cases s.focusedIndex with
  | none => rfl
  | some i =>
    by_cases hi : i ≠ 0
    · simp [hi]
    · simp [hi]

theorem goToNextItem_timers (p : SelectProps) (s : SelectState) :
    (goToNextItem p s).timers = s.timers := by
  unfold goToNextItem
  cases s.focusedIndex with
  | none => rfl
  | some i =>
    by_cases hi : (i : Int) ≠ (p.children.length : Int) - 1
    · simp [hi]
    · simp [hi]

theorem closeSelect_timers (p : SelectProps) (s : SelectState) :
    (closeSelect p s).1.timers = s.timers := by
  unfold closeSelect
  by_cases hc : isControlled p
  · simp [hc]
  · simp [hc]

theorem menuSwitch_timers (p : SelectProps) (k : String) (s : SelectState) :
    (menuSwitch p k s).1.timers = s.timers := by
  unfold menuSwitch
  split
  · exact goToPreviousItem_timers s
  · split
    · exact goToNextItem_timers p s
    · split
      · exact closeSelect_timers p s
      · rfl

theorem searchEffect_timers (p : SelectProps) (now : Nat) (s : SelectState) :
    (searchEffect p now s).timers = s.timers ∨
      (searchEffect p now s).timers = [now + p.clearSearchAfter] := by
  unfold searchEffect
  by_cases h1 : s.search = ""
  · simp [h1]
  · simp only [h1, if_false]
    by_cases h2 : isSearchable p
    · simp only [h2, if_true]
      cases matchedIndex p s.search <;> simp
    · simp [h2]

theorem menuKeydown_timers (p : SelectProps) (k : String) (now : Nat)
    (s : SelectState) :
    ((handleMenuKeydown p k now s).1).timers = s.timers ∨
      ((handleMenuKeydown p k now s).1).timers = [now + p.clearSearchAfter] := by
  unfold handleMenuKeydown
  by_cases hg : (isAlphanumericKey k && isSearchable p && (k.data.length == 1)) = true
  · simp only [hg, if_true]
    rcases searchEffect_timers p now
        { (menuSwitch p k s).1 with search := (menuSwitch p k s).1.search ++ k } with h | h
    · left
      rw [h]
      exact menuSwitch_timers p k s
    · right
      exact h
  · simp only [Bool.not_eq_true] at hg
    simp only [hg, if_false]
    left
    exact menuSwitch_timers p k s

/-- A searchable option set (projection supplied) whose projection returns
the empty string on every value, exposing the source's falsy fallback from
`getSearchableValue(v)` to `String(v)`. -/
def emptyProjProps : SelectProps :=
  { children := [⟨JSVal.str "x", "x", ""⟩]
    value := none
    placeholder := ""
    isOpen := none
    clearSearchAfter := 500
    getSearchableValue := some (fun _ => "") }

/-- C1 counterexample: over the searchable set `emptyProjProps` (a
projection is supplied and returns `""`), with buffer `"x"`, no option's
searchable string in the claim's sense (`specSearchableString`, the
projection's result) has the buffer as a prefix, so the claim requires the
matcher to leave FocusedIndex unchanged (`none`); the code's search effect
nevertheless sets it to `some 0`, because `getSearchableValue?.(v) ||
String(v)` falls back from the falsy projection result `""` to
`String("x") = "x"`. -/
theorem c1_counterexample :
    isSearchable emptyProjProps = true ∧
    (∀ v ∈ allOptionValues emptyProjProps,
      jsStartsWith (specSearchableString emptyProjProps v) "x" = false) ∧
    ({ initState with search := "x" } : SelectState).focusedIndex = none ∧
    (searchEffect emptyProjProps 0
      { initState with search := "x" }).focusedIndex = some 0 := by
  decide

/-- C1 (amended): for every non-empty search buffer over a searchable
option set, the search effect sets FocusedIndex to the index of the first
option in list order whose searchable string — the projection's result if
one is supplied and its result is non-empty, else the option's string
value (the code computes `getSearchableValue?.(v) || String(v)`) — starts
with the buffer under case-sensitive prefix comparison, and leaves
FocusedIndex unchanged (a silent no-op) when no option's searchable string
has the buffer as a prefix; for options `["apple","banana","cherry"]` and
buffer `"ba"` it resolves FocusedIndex to 1. -/
theorem c1_search_matcher (p : SelectProps) (now : Nat) (s : SelectState)
    (hs : s.search ≠ "") (hsearch : isSearchable p = true) :
    (∀ i x, (allOptionValues p).get? i = some x →
      jsStartsWith (searchableString p x) s.search = true →
      (∀ j, j < i → ∀ y, (allOptionValues p).get? j = some y →
        jsStartsWith (searchableString p y) s.search = false) →
      (searchEffect p now s).focusedIndex = some i) ∧
    ((∀ v ∈ allOptionValues p,
        jsStartsWith (searchableString p v) s.search = false) →
      (searchEffect p now s).focusedIndex = s.focusedIndex) ∧
    (searchEffect bananaProps 0
      { initState with search := "ba" }).focusedIndex = some 1 := by
  refine ⟨?_, ?_, by decide⟩
  · intro i x hget hpre hall
    have hm : matchedIndex p s.search = some i :=
      (jsFindIndex_eq_some _ _ _).mpr ⟨⟨x, hget, hpre⟩, hall⟩
    simp [searchEffect, hs, hsearch, hm]
  · intro hnone
    have hm : matchedIndex p s.search = none :=
      (jsFindIndex_eq_none _ _).mpr hnone
    simp [searchEffect, hs, hsearch, hm]

/-- C1 witness: the amended matcher applied at the scenario input
`["apple","banana","cherry"]` with buffer `"ba"`. -/
theorem c1_search_matcher_witness :
    (searchEffect bananaProps 0
      { initState with search := "ba" }).focusedIndex = some 1 :=
  (c1_search_matcher bananaProps 0 { initState with search := "ba" }
    (by decide) (by decide)).2.2

/-- C2 counterexample: with `deepOnlyProps` the `value` prop is deep-equal
to the option at index 1 and to no other option, so the claim requires
opening to set FocusedIndex to that selection's index 1; the code computes
`selectedIndex` with `===`, finds no selection, and opening sets
FocusedIndex to 0 instead. -/
theorem c2_counterexample :
    (deepOnlyProps.children.map
      (fun c => isDeepEqualV c.value deepOnlyProps.value)) = [false, true] ∧
    (openSelect deepOnlyProps initState).1.focusedIndex = some 0 := by
  decide

/-- C2 (amended): for every option list and every current selection value,
opening the widget sets FocusedIndex to the index of the current selection
when one is present and to 0 when nothing is selected, where the current
selection's index is determined by JavaScript strict equality (`===`) —
value equality for strings, reference identity for objects — between the
`value` prop and an option's value, not by deep structural equality. -/
theorem c2_open_focus (p : SelectProps) (s : SelectState) :
    (∀ i c, p.children.get? i = some c → strictEqV c.value p.value = true →
      (∀ j, j < i → ∀ d, p.children.get? j = some d →
        strictEqV d.value p.value = false) →
      (openSelect p s).1.focusedIndex = some i) ∧
    ((∀ c ∈ p.children, strictEqV c.value p.value = false) →
      (openSelect p s).1.focusedIndex = some 0) := by
  constructor
  · intro i c hget hq hall
    have hsel : selectedIndex p = some i :=
      (jsFindIndex_eq_some _ _ _).mpr ⟨⟨c, hget, hq⟩, hall⟩
    simp [openSelect, hsel]
  · intro hnone
    have hsel : selectedIndex p = none :=
      (jsFindIndex_eq_none _ _).mpr hnone
    simp [openSelect, hsel]

/-- Two string options with the `value` prop strictly equal to the second,
so a strict-equality selection exists at index 1. -/
def stringSelProps : SelectProps :=
  { children := [⟨JSVal.str "a", "a", ""⟩, ⟨JSVal.str "b", "b", ""⟩]
    value := some (JSVal.str "b")
    placeholder := ""
    isOpen := none
    clearSearchAfter := 500
    getSearchableValue := none }

/-- C2 witness: opening over `stringSelProps` focuses the strict-equality
selection at index 1. -/
theorem c2_open_focus_witness :
    (openSelect stringSelProps initState).1.focusedIndex = some 1 :=
  (c2_open_focus stringSelProps initState).1 1 ⟨JSVal.str "b", "b", ""⟩
    (by decide) (by decide)
    (by
      intro j hj d hget
      have hj0 : j = 0 := by omega
      rw [hj0] at hget
      have hget' : some (⟨JSVal.str "a", "a", ""⟩ : OptionItem) = some d := hget
      injection hget' with hd
      rw [← hd]
      decide)

theorem arrow_step_bound (p : SelectProps) (s : SelectState) (i : Nat)
    (a : ArrowKey) (hfi : s.focusedIndex = some i)
    (hi : i < p.children.length) :
    ∃ j, ((handleMenuKeydown p (arrowKeyName a) 0 s).1).focusedIndex = some j ∧
      j < p.children.length := by
  cases a with
  | up =>
    rw [show arrowKeyName ArrowKey.up = "ArrowUp" from rfl,
      menuKeydown_arrowUp]
    unfold goToPreviousItem
    rw [hfi]
    by_cases h0 : i ≠ 0
    · exact ⟨i - 1, by simp [h0], by omega⟩
    · exact ⟨i, by simp [h0, hfi], hi⟩
  | down =>
    rw [show arrowKeyName ArrowKey.down = "ArrowDown" from rfl,
      menuKeydown_arrowDown]
    unfold goToNextItem
    rw [hfi]
    by_cases hl : (i : Int) ≠ (p.children.length : Int) - 1
    · refine ⟨i + 1, by simp [hl], ?_⟩
      omega
    · exact ⟨i, by simp [hl, hfi], hi⟩

/-- C3: for every option list of length `n` and every FocusedIndex
`i ∈ [0, n-1]`, ArrowDown moves FocusedIndex to `min (i+1) (n-1)` (an
increment clamped to the last index, no wraparound), ArrowUp moves it to
`i - 1` (a decrement clamped to 0), and no sequence of ArrowDown/ArrowUp
menu keydowns ever moves FocusedIndex outside `[0, n-1]`. -/
theorem c3_arrow_clamp (p : SelectProps) (s : SelectState) (i : Nat)
    (hfi : s.focusedIndex = some i) (hi : i < p.children.length) :
    (goToNextItem p s).focusedIndex
      = some (min (i + 1) (p.children.length - 1)) ∧
    (goToPreviousItem s).focusedIndex = some (i - 1) ∧
    ∀ l : List ArrowKey, ∃ j,
      (applyArrows p s l).focusedIndex = some j ∧ j < p.children.length := by
  refine ⟨?_, ?_, ?_⟩
  · unfold goToNextItem
    rw [hfi]
    by_cases hl : (i : Int) ≠ (p.children.length : Int) - 1
    · have hmin : min (i + 1) (p.children.length - 1) = i + 1 := by omega
      simp [hl, hmin]
    · have hieq : i = p.children.length - 1 := by omega
      have hmin : min (i + 1) (p.children.length - 1) = i := by omega
      simp [hl, hfi, hmin]
  · unfold goToPreviousItem
    rw [hfi]
    by_cases h0 : i ≠ 0
    · simp [h0]
    · have h0' : i = 0 := by omega
      simp [h0, hfi, h0']
  · intro l
    induction l generalizing s i with
    | nil => exact ⟨i, by simpa [applyArrows] using hfi, hi⟩
    | cons a l ihl =>
      rcases arrow_step_bound p s i a hfi hi with ⟨j, hj, hjlt⟩
      rcases ihl _ _ hj hjlt with ⟨m, hm, hmlt⟩
      refine ⟨m, ?_, hmlt⟩
      rw [show applyArrows p s (a :: l)
        = applyArrows p ((handleMenuKeydown p (arrowKeyName a) 0 s).1) l
        from rfl]
      exact hm

/-- C3 witness: from FocusedIndex 1 over the three scenario options,
ArrowDown moves the focus to `min 2 2 = 2`. -/
theorem c3_arrow_clamp_witness :
    (goToNextItem bananaProps
      { initState with focusedIndex := some 1 }).focusedIndex
      = some (min (1 + 1) (bananaProps.children.length - 1)) :=
  (c3_arrow_clamp bananaProps { initState with focusedIndex := some 1 } 1
    rfl (by decide)).1

/-- C4: when the option set is not uniformly string-valued and no
projection function is supplied, `isSearchable` is false and every
single-character key pressed while the menu is open is a complete no-op:
the whole state (so in particular the search buffer and FocusedIndex) is
unchanged and nothing is emitted. -/
theorem c4_unsearchable_ignores_chars (p : SelectProps)
    (hns : isNaturallySearchable p = false)
    (hf : p.getSearchableValue = none) :
    isSearchable p = false ∧
    ∀ (k : String) (now : Nat) (s : SelectState), k.data.length = 1 →
      handleMenuKeydown p k now s = (s, []) := by
  have hsearch : isSearchable p = false := by
    simp [isSearchable, hns, hf]
  refine ⟨hsearch, ?_⟩
  intro k now s hk
  have h1 : k ≠ "ArrowUp" := by
    intro h
    rw [h] at hk
    exact absurd hk (by decide)
  have h2 : k ≠ "ArrowDown" := by
    intro h
    rw [h] at hk
    exact absurd hk (by decide)
  have h3 : k ≠ "Escape" := by
    intro h
    rw [h] at hk
    exact absurd hk (by decide)
  simp [handleMenuKeydown, menuSwitch, h1, h2, h3, hsearch]

/-- The specification scenario: object options with contents 1 and 2 and no
projection function. -/
def objProps : SelectProps :=
  { children := [⟨JSVal.obj 0 1, "", ""⟩, ⟨JSVal.obj 1 2, "", ""⟩]
    value := none
    placeholder := ""
    isOpen := none
    clearSearchAfter := 500
    getSearchableValue := none }

/-- C4 witness: over the object options `{id:1},{id:2}` with no projection,
searchability is false and typing `"a"` changes nothing. -/
theorem c4_unsearchable_ignores_chars_witness :
    isSearchable objProps = false ∧
    handleMenuKeydown objProps "a" 0 initState = (initState, []) :=
  ⟨(c4_unsearchable_ignores_chars objProps (by decide) rfl).1,
    (c4_unsearchable_ignores_chars objProps (by decide) rfl).2 "a" 0
      initState (by decide)⟩

/-- The open uncontrolled state used against the anchor handlers. -/
def openUncontrolledState : SelectState :=
  { initState with uncontrolledOpen := true }

/-- C5 counterexample: with the menu open in uncontrolled mode, pressing
Space on the anchor leaves the menu open — `handleAnchorKeydown` always
calls `open()`, never `close()` — while the claim requires activation while
open to close it. -/
theorem c5_counterexample :
    isOpenNow bananaProps openUncontrolledState = true ∧
    isOpenNow bananaProps
      (handleAnchorKeydown bananaProps " " openUncontrolledState).1 = true := by
  decide

/-- C5 (amended): in uncontrolled mode, clicking the anchor toggles the
menu between open and closed, but the Space key on the anchor always runs
the open routine: it opens a closed menu and leaves an open menu open
(resetting FocusedIndex), never closing it. -/
theorem c5_anchor_activation (p : SelectProps) (s : SelectState)
    (h : p.isOpen = none) :
    (handleAnchorClick p s).1.uncontrolledOpen = !s.uncontrolledOpen ∧
    (handleAnchorKeydown p " " s).1.uncontrolledOpen = true := by
  have hc : isControlled p = false := by simp [isControlled, h]
  constructor
  · cases ho : s.uncontrolledOpen <;>
      simp [handleAnchorClick, isOpenNow, h, ho, openSelect, closeSelect, hc]
  · simp [handleAnchorKeydown, openSelect, hc]

/-- C5 witness: the amended anchor behavior at an open uncontrolled
widget. -/
theorem c5_anchor_activation_witness :
    (handleAnchorClick bananaProps openUncontrolledState).1.uncontrolledOpen
      = !openUncontrolledState.uncontrolledOpen ∧
    (handleAnchorKeydown bananaProps " "
      openUncontrolledState).1.uncontrolledOpen = true :=
  c5_anchor_activation bananaProps openUncontrolledState rfl

/-- C6: committing the option at a valid index emits exactly one change
event, and that event carries the option's own value together with the
option's index.  (The committed selection itself always lives with the
owner: the component keeps no internal selection state, so the claim's
uncontrolled-selection clause is vacuous.) -/
theorem c6_change_event (p : SelectProps) (i : Nat) (c : OptionItem)
    (h : p.children.get? i = some c) :
    handleChildChange p i = [Emitted.change c.value i] ∧
    (handleChildChange p i).length = 1 := by
  rw [List.get?_eq_getElem?] at h
  constructor
  · simp [handleChildChange, h]
  · simp [handleChildChange, h]

/-- C6 witness: committing index 1 of the scenario options emits exactly
`change "banana" 1`. -/
theorem c6_change_event_witness :
    handleChildChange bananaProps 1 = [Emitted.change (JSVal.str "banana") 1] ∧
    (handleChildChange bananaProps 1).length = 1 :=
  c6_change_event bananaProps 1 ⟨JSVal.str "banana", "banana", ""⟩ rfl

theorem searchEffect_schedules (p : SelectProps) (now : Nat)
    (s : SelectState) (hs : s.search ≠ "") (hse : isSearchable p = true) :
    (searchEffect p now s).timers = [now + p.clearSearchAfter] := by
  unfold searchEffect
  simp only [hs, if_false, hse, if_true]
  cases matchedIndex p s.search <;> simp

theorem menuKeydown_schedules (p : SelectProps) (k : String) (now : Nat)
    (s : SelectState) (hk : isAlphanumericKey k = true)
    (hl : k.data.length = 1) (hse : isSearchable p = true) :
    ((handleMenuKeydown p k now s).1).timers = [now + p.clearSearchAfter] := by
  have h1 : k ≠ "ArrowUp" := by
    intro h
    rw [h] at hl
    exact absurd hl (by decide)
  have h2 : k ≠ "ArrowDown" := by
    intro h
    rw [h] at hl
    exact absurd hl (by decide)
  have h3 : k ≠ "Escape" := by
    intro h
    rw [h] at hl
    exact absurd hl (by decide)
  have hkne : k.data ≠ [] := by
    intro h
    rw [h] at hl
    exact absurd hl (by decide)
  have hsw : menuSwitch p k s = (s, []) := by
    simp [menuSwitch, h1, h2, h3]
  have hguard :
      (isAlphanumericKey k && isSearchable p && (k.data.length == 1)) = true := by
    simp [hk, hse, hl]
  have hsne : s.search ++ k ≠ "" := by
    intro h
    have hd := congrArg String.data h
    rw [String.data_append] at hd
    exact hkne (List.append_eq_nil.mp hd).2
  unfold handleMenuKeydown
  rw [hsw]
  simp only [hguard, if_true]
  exact searchEffect_schedules p now _ hsne hse

theorem timedStep_timers_le (p : SelectProps) (s : SelectState)
    (e : TimedEvent) (h : s.timers.length ≤ 1) :
    (timedStep p s e).timers.length ≤ 1 := by
  cases e with
  | keydown k t =>
    show ((handleMenuKeydown p k t s).1).timers.length ≤ 1
    rcases menuKeydown_timers p k t s with h' | h'
    · rw [h']
      exact h
    · rw [h']
      simp
  | fire d =>
    show (if s.timers.contains d
      then { s with search := "", timers := [] } else s).timers.length ≤ 1
    by_cases hd : s.timers.contains d
    · rw [if_pos hd]
      simp
    · rw [if_neg hd]
      exact h

/-- C7 counterexample: typing `"b"` over `["apple","banana","cherry"]`
successfully matches (FocusedIndex moves to 1), yet immediately afterwards
the search buffer still holds `"b"`: the code never clears the buffer upon
a successful match, only the inactivity timer does. -/
theorem c7_counterexample :
    (handleMenuKeydown bananaProps "b" 0 initState).1.focusedIndex = some 1 ∧
    (handleMenuKeydown bananaProps "b" 0 initState).1.search = "b" := by
  decide

/-- C7 (amended): the SearchBuffer is cleared to empty only when
`clearSearchAfter` milliseconds (default 500) elapse with no further input
— a successful match moves FocusedIndex but does not clear the buffer —
and each buffer-accumulating keystroke cancels any pending clear and
schedules a new one at `now + clearSearchAfter`, so at most one clear
timer is pending at any time. -/
theorem c7_timer (p : SelectProps) (k : String) (now : Nat)
    (s : SelectState) (hk : isAlphanumericKey k = true)
    (hl : k.data.length = 1) (hse : isSearchable p = true) :
    ((handleMenuKeydown p k now s).1).timers = [now + p.clearSearchAfter] ∧
    (∀ (d : Nat) (s' : SelectState), s'.timers.contains d = true →
      timedStep p s' (TimedEvent.fire d)
        = { s' with search := "", timers := [] }) ∧
    (∀ (s0 : SelectState) (evs : List TimedEvent),
      s0.timers.length ≤ 1 → (runTimed p s0 evs).timers.length ≤ 1) := by
  refine ⟨menuKeydown_schedules p k now s hk hl hse, ?_, ?_⟩
  · intro d s' hd
    show (if s'.timers.contains d
      then { s' with search := "", timers := [] } else s')
      = { s' with search := "", timers := [] }
    rw [if_pos hd]
  · intro s0 evs
    induction evs generalizing s0 with
    | nil =>
      intro h
      exact h
    | cons e evs ih =>
      intro h
      show (runTimed p (timedStep p s0 e) evs).timers.length ≤ 1
      exact ih _ (timedStep_timers_le p s0 e h)

/-- C7 witness: typing `"b"` at time 0 over the scenario options schedules
the single clear timer at `0 + 500`. -/
theorem c7_timer_witness :
    ((handleMenuKeydown bananaProps "b" 0 initState).1).timers
      = [0 + bananaProps.clearSearchAfter] :=
  (c7_timer bananaProps "b" 0 initState (by decide) (by decide)
    (by decide)).1

/-- C8: when the `isOpen` prop is supplied, `open()` emits the `onOpen`
callback and `close()` emits the `onClose` callback, and neither touches
the internal uncontrolled open flag (`close()` leaves the state entirely
unchanged). -/
theorem c8_controlled_open (p : SelectProps) (s : SelectState) (b : Bool)
    (h : p.isOpen = some b) :
    (openSelect p s).1.uncontrolledOpen = s.uncontrolledOpen ∧
    (openSelect p s).2 = [Emitted.onOpen] ∧
    closeSelect p s = (s, [Emitted.onClose]) := by
  have hc : isControlled p = true := by simp [isControlled, h]
  refine ⟨?_, ?_, ?_⟩ <;> simp [openSelect, closeSelect, hc]

/-- The scenario options with the open state controlled by the caller. -/
def controlledProps : SelectProps :=
  { children := [⟨JSVal.str "apple", "apple", ""⟩,
      ⟨JSVal.str "banana", "banana", ""⟩, ⟨JSVal.str "cherry", "cherry", ""⟩]
    value := none
    placeholder := ""
    isOpen := some true
    clearSearchAfter := 500
    getSearchableValue := none }

/-- C8 witness: the controlled open/close requests at a concrete widget. -/
theorem c8_controlled_open_witness :
    (openSelect controlledProps initState).1.uncontrolledOpen
      = initState.uncontrolledOpen ∧
    (openSelect controlledProps initState).2 = [Emitted.onOpen] ∧
    closeSelect controlledProps initState
      = (initState, [Emitted.onClose]) :=
  c8_controlled_open controlledProps initState true rfl

/-- C9: when the `value` prop is deep-equal to some option's value but
strictly equal (`===`) to none, the item at that index still receives
`selected = true` (computed with `isDeepEqual`), while `selectedIndex`
(computed with `===`) is `null`, the anchor displays the placeholder, and
opening the widget focuses index 0. -/
theorem c9_deep_vs_strict (p : SelectProps) (s : SelectState) (k : Nat)
    (c : OptionItem) (hget : p.children.get? k = some c)
    (hdeep : isDeepEqualV c.value p.value = true)
    (hstrict : ∀ d ∈ p.children, strictEqV d.value p.value = false) :
    itemSelected p k = true ∧
    selectedIndex p = none ∧
    displayedValue p = p.placeholder ∧
    (openSelect p s).1.focusedIndex = some 0 := by
  have hsel : selectedIndex p = none := (jsFindIndex_eq_none _ _).mpr hstrict
  rw [List.get?_eq_getElem?] at hget
  refine ⟨?_, hsel, ?_, ?_⟩
  · simp [itemSelected, hget, hdeep]
  · simp [displayedValue, hsel]
  · simp [openSelect, hsel]

/-- C9 witness: over `deepOnlyProps` (deep-equal selection at index 1,
strict-equal selection nowhere) the item at 1 renders selected while
`selectedIndex` is `null`, the placeholder is shown, and opening focuses
index 0. -/
theorem c9_deep_vs_strict_witness :
    itemSelected deepOnlyProps 1 = true ∧
    selectedIndex deepOnlyProps = none ∧
    displayedValue deepOnlyProps = deepOnlyProps.placeholder ∧
    (openSelect deepOnlyProps initState).1.focusedIndex = some 0 :=
  c9_deep_vs_strict deepOnlyProps initState 1 ⟨JSVal.obj 1 5, "second", ""⟩
    rfl (by decide) (by decide)

/-- C10: when FocusedIndex is `null`, `goToPreviousItem` and `goToNextItem`
are total no-ops, and the ArrowUp/ArrowDown menu keydowns leave the whole
state unchanged and emit nothing. -/
theorem c10_null_focus_noop (p : SelectProps) (now : Nat) (s : SelectState)
    (h : s.focusedIndex = none) :
    goToPreviousItem s = s ∧ goToNextItem p s = s ∧
    handleMenuKeydown p "ArrowUp" now s = (s, []) ∧
    handleMenuKeydown p "ArrowDown" now s = (s, []) := by
  have h1 : goToPreviousItem s = s := by
    unfold goToPreviousItem
    rw [h]
  have h2 : goToNextItem p s = s := by
    unfold goToNextItem
    rw [h]
  exact ⟨h1, h2, by rw [menuKeydown_arrowUp, h1], by
    rw [menuKeydown_arrowDown, h2]⟩

/-- C10 witness: the arrow handlers at the never-opened initial state. -/
theorem c10_null_focus_noop_witness :
    goToPreviousItem initState = initState ∧
    goToNextItem bananaProps initState = initState ∧
    handleMenuKeydown bananaProps "ArrowUp" 0 initState = (initState, []) ∧
    handleMenuKeydown bananaProps "ArrowDown" 0 initState = (initState, []) :=
  c10_null_focus_noop bananaProps 0 initState rfl
